import Mathlib

/-!
Smart Study Companion: the chat client `static/script.js`.

A shallow embedding of the browser-side chat client.  The DOM regions the script
touches, the `currentSessionId` variable, `localStorage` and a log of the effects
performed (network requests and chat-pane mutations) form an explicit `State`.
Every `async` function becomes a state transformer that additionally receives the
outcome of each `fetch(...)`/`res.json()` pair it may await, in program order:
`Except.error e` when the pair throws `e`, `Except.ok data` with the decoded body
otherwise.  A function that can reject returns the state it left behind together
with the thrown error, if any.

Decoded bodies are typed after the fields the script reads.  Fields the script guards
with `|| []`, `|| null` or a truthiness test are optional; strings are truthy exactly
when non-empty.  A counter is the integer value of the double the script holds; it is
printed as its decimal digits when it is a safe integer (below 2^53), and by a platform
function, taken as a parameter, beyond.  Date formatting is a platform parameter as well.
Markup assigned to `innerHTML` is kept as the assigned string; its parsing by the browser
is not part of the embedding.  Each operation runs to completion before the next one
starts.
-/

namespace SSC

/-! ## Data model -/

/-- The inner `div.bubble` of a chat entry: either the three-dot typing animation or a
text with an optional `div.meta` child. -/
inductive Bubble where
  | typing
  | content (textContent : String) (metaDiv : Option String)
  deriving DecidableEq, Repr

/-- A `div.msg` element of the chat pane.  `id` stands for the identity of the DOM node. -/
structure Node where
  id : Nat
  className : String
  bubble : Bubble
  deriving DecidableEq, Repr

/-- A simple `div` with a class and a text. -/
structure Div where
  className : String
  textContent : String
  deriving DecidableEq, Repr

/-- A child of `#sessionList`: its class, the markup source assigned to its `innerHTML`
(which the browser parses into the children of the element) and, when a click listener
is attached, the id the listener passes to `selectSession`. -/
structure SessionDiv where
  className : String
  innerHTML : String
  click : Option String
  deriving DecidableEq, Repr

/-- Body of an HTTP request. -/
inductive Body where
  | empty
  | json (message : String) (session_id : String)
  | formData (pdfs : List String) (session_id : String)
  deriving DecidableEq, Repr

/-- An HTTP request as passed to `fetch`. -/
structure Request where
  method : String
  url : String
  body : Body
  deriving DecidableEq, Repr

/-- Effects recorded in program order. -/
inductive Event where
  | fetch (r : Request)
  | appendChild (id : Nat)
  | remove (id : Nat)
  | clear
  deriving DecidableEq, Repr

/-- An entry of `data.sessions`. -/
structure Session where
  id : String
  name : String
  created_at : String
  pdf_count : Nat
  message_count : Nat
  deriving DecidableEq, Repr

/-- The `session` object of a create/load response. -/
structure SessionInfo where
  id : String
  name : String
  created_at : String
  deriving DecidableEq, Repr

/-- An entry of `data.history`. -/
structure ChatMessage where
  role : String
  text : String
  metaText : Option String
  deriving DecidableEq, Repr

/-- Decoded body of `GET /api/sessions`. -/
structure SessionsData where
  sessions : Option (List Session)
  deriving DecidableEq, Repr

/-- Decoded body of `POST /api/session/new` and `GET /api/session/{id}`. -/
structure SessionData where
  session : Option SessionInfo
  pdf_list : Option (List String)
  history : Option (List ChatMessage)
  deriving DecidableEq, Repr

/-- Decoded body of `POST /chat`. -/
structure ChatData where
  response : String
  source : Option String
  deriving DecidableEq, Repr

/-- Decoded body of `POST /upload`. -/
structure UploadData where
  messages : Option (List String)
  pdf_list : Option (List String)
  deriving DecidableEq, Repr

/-- Platform formatting: `new Date(x).toLocaleDateString()`, `new Date(x).toLocaleString()`
and the conversion of a number beyond the safe integers to a string (shortest round-trip
digits, exponent form from 1e21 on). -/
structure Locale where
  toLocaleDateString : String → String
  toLocaleString : String → String
  largeNumberToString : Nat → String

/-- The page: DOM regions, script variables, storage and the effect log. -/
structure State where
  chat : List Node
  nextId : Nat
  input : String
  files : List String
  pdfList : List Div
  sessionList : List SessionDiv
  activeChatName : String
  activeChatMeta : String
  currentSessionId : String
  localStorage : List (String × String)
  log : List Event
  deriving DecidableEq, Repr

/-! ## JavaScript primitives -/

/-- Code points stripped by `String.prototype.trim`: WhiteSpace and LineTerminator. -/
def isTrimChar (c : Char) : Bool :=
  let n := c.toNat
  n = 0x9 || n = 0xA || n = 0xB || n = 0xC || n = 0xD || n = 0x20 || n = 0xA0 ||
  n = 0x1680 || (0x2000 ≤ n && n ≤ 0x200A) || n = 0x2028 || n = 0x2029 ||
  n = 0x202F || n = 0x205F || n = 0x3000 || n = 0xFEFF

/-- `String.prototype.trim`. -/
def jsTrim (s : String) : String :=
  ⟨((s.data.dropWhile isTrimChar).reverse.dropWhile isTrimChar).reverse⟩

/-- `x || d` for a string or `null`. -/
def strOr (x : Option String) (d : String) : String :=
  match x with
  | some v => if v = "" then d else v
  | none => d

/-- An optional string kept only when truthy (`x || null`, `if(x)`). -/
def truthyOrNull (x : Option String) : Option String :=
  match x with
  | some v => if v = "" then none else some v
  | none => none

/-- `localStorage.getItem`. -/
def getItem (store : List (String × String)) (key : String) : Option String :=
  store.lookup key

/-- `localStorage.setItem`. -/
def setItem (store : List (String × String)) (key value : String) : List (String × String) :=
  (key, value) :: store.filter (fun kv => kv.1 ≠ key)

/-- Append to the effect log. -/
def State.record (st : State) (e : Event) : State :=
  { st with log := st.log ++ [e] }

/-- The requests among the events of a log, oldest first. -/
def fetched (log : List Event) : List Request :=
  log.filterMap (fun e => match e with
    | .fetch r => some r
    | _ => none)

/-- Requests issued so far, oldest first. -/
def requests (st : State) : List Request :=
  fetched st.log

/-- Class, text and meta line of the chat entries, node identity dropped. -/
def contents (chat : List Node) : List (String × Bubble) :=
  chat.map (fun n => (n.className, n.bubble))

/-! ## UI helpers -/

/-- Source `addBubble(text, who, meta=null, isTyping=false)`: returns the new wrapper
node and appends it to the chat pane. -/
def addBubble (text who : String) (metaText : Option String) (isTyping : Bool)
    (st : State) : Node × State :=
  let bubble :=
    if isTyping then Bubble.typing
    else Bubble.content text (truthyOrNull metaText)
  let wrap : Node := ⟨st.nextId, "msg " ++ who, bubble⟩
  (wrap, { st with chat := st.chat ++ [wrap], nextId := st.nextId + 1,
                   log := st.log ++ [Event.appendChild wrap.id] })

/-- Source `node.remove()` for a chat entry: detaches the node if it is attached. -/
def removeNode (node : Node) (st : State) : State :=
  { st with chat := st.chat.filter (fun n => n.id ≠ node.id),
            log := st.log ++ [Event.remove node.id] }

/-- Source `clearChatView()`. -/
def clearChatView (st : State) : State :=
  { st with chat := [], log := st.log ++ [Event.clear] }

/-- Source `renderPdfList(list)`. -/
def renderPdfList (list : List String) (st : State) : State :=
  let st := { st with pdfList := [] }
  if list.length = 0 then
    { st with pdfList := [⟨"hint", "Upload PDFs to see them here."⟩] }
  else
    list.foldl (fun st name => { st with pdfList := st.pdfList ++ [⟨"pdf-item", name⟩] }) st

/-- One step of the `history.forEach` callback in `renderHistory`. -/
def renderHistoryStep (st : State) (msg : ChatMessage) : State :=
  if msg.role = "user" then
    (addBubble msg.text "user" none false st).2
  else if msg.role = "bot" then
    (addBubble msg.text "bot" (truthyOrNull msg.metaText) false st).2
  else
    (addBubble ("Assistant: " ++ msg.text) "bot" none false st).2

/-- Source `renderHistory(history)`. -/
def renderHistory (history : List ChatMessage) (st : State) : State :=
  let st := clearChatView st
  if history.length = 0 then
    (addBubble "Assistant: This chat is empty. Upload PDFs to begin." "bot" none false st).2
  else
    history.foldl renderHistoryStep st

/-- The string a template literal substitutes for a counter: the decimal digits of a
safe integer, the platform's conversion beyond 2^53. -/
def numberToString (L : Locale) (n : Nat) : String :=
  if n < 2 ^ 53 then toString n else L.largeNumberToString n

/-- The part `${s.pdf_count} PDF(s) • ${s.message_count} msg` of the template literal
in `renderSessions`. -/
def sessionMetaText (L : Locale) (s : Session) : String :=
  numberToString L s.pdf_count ++ " PDF(s) • " ++ numberToString L s.message_count ++ " msg"

/-- The template literal assigned to `item.innerHTML` in `renderSessions`: markup source
with `s.name`, the counters and the date substituted as they are, without escaping. -/
def sessionItemHTML (L : Locale) (s : Session) : String :=
  "\n      <div class=\"session-left\">\n        <div class=\"session-name\">" ++ s.name ++
  "</div>\n        <div class=\"session-meta\">" ++ sessionMetaText L s ++
  "</div>\n      </div>\n      <div class=\"session-right\">" ++
  L.toLocaleDateString s.created_at ++ "</div>\n    "

/-- The element built by one step of the `list.forEach` callback in `renderSessions`. -/
def sessionItem (L : Locale) (currentSessionId : String) (s : Session) : SessionDiv :=
  { className := "session-item" ++ (if s.id = currentSessionId then " active" else ""),
    innerHTML := sessionItemHTML L s,
    click := some s.id }

/-- Source `renderSessions(list)`. -/
def renderSessions (L : Locale) (list : List Session) (st : State) : State :=
  let st := { st with sessionList := [] }
  if list.length = 0 then
    { st with sessionList := [⟨"hint", "No chats yet.", none⟩] }
  else
    list.foldl (fun st s =>
      { st with sessionList := st.sessionList ++ [sessionItem L st.currentSessionId s] }) st

/-- Source `setActiveHeader(name, createdAt)`. -/
def setActiveHeader (L : Locale) (name createdAt : String) (st : State) : State :=
  let st := { st with activeChatName := strOr (some name) "Chat" }
  if createdAt ≠ "" then
    { st with activeChatMeta := "Created: " ++ L.toLocaleString createdAt }
  else
    { st with activeChatMeta := "—" }

/-! ## API -/

/-- The error thrown by `data.session.id` when `data.session` is `undefined`. -/
def typeError : String := "TypeError"

/-- Source `refreshSessions()`; `r` is the outcome of `GET /api/sessions`. -/
def refreshSessions (L : Locale) (r : Except String SessionsData) (st : State) :
    State × Option String :=
  let st := st.record (Event.fetch ⟨"GET", "/api/sessions", Body.empty⟩)
  match r with
  | .error e => (st, some e)
  | .ok data => (renderSessions L (data.sessions.getD []) st, none)

/-- Source `createNewSession()`; `r` is the outcome of `POST /api/session/new`, `rs`
of the final `refreshSessions()`. -/
def createNewSession (L : Locale) (r : Except String SessionData)
    (rs : Except String SessionsData) (st : State) : State × Option String :=
  let st := st.record (Event.fetch ⟨"POST", "/api/session/new", Body.empty⟩)
  match r with
  | .error e => (st, some e)
  | .ok data =>
    match data.session with
    | none => (st, some typeError)
    | some session =>
      let st := { st with currentSessionId := session.id }
      let st := { st with
        localStorage := setItem st.localStorage "ssc_session_id" st.currentSessionId }
      let st := setActiveHeader L session.name session.created_at st
      let st := renderPdfList (data.pdf_list.getD []) st
      let st := renderHistory (data.history.getD []) st
      refreshSessions L rs st

/-- Source `loadSession(sessionId)`; `r` is the outcome of `GET /api/session/{id}`,
`rs` of the final `refreshSessions()`. -/
def loadSession (L : Locale) (sessionId : String) (r : Except String SessionData)
    (rs : Except String SessionsData) (st : State) : State × Option String :=
  let st := st.record (Event.fetch ⟨"GET", "/api/session/" ++ sessionId, Body.empty⟩)
  match r with
  | .error e => (st, some e)
  | .ok data =>
    match data.session with
    | none => (st, some typeError)
    | some session =>
      let st := { st with currentSessionId := session.id }
      let st := { st with
        localStorage := setItem st.localStorage "ssc_session_id" st.currentSessionId }
      let st := setActiveHeader L session.name session.created_at st
      let st := renderPdfList (data.pdf_list.getD []) st
      let st := renderHistory (data.history.getD []) st
      refreshSessions L rs st

/-- Source `selectSession(sessionId)`. -/
def selectSession (L : Locale) (sessionId : String) (r : Except String SessionData)
    (rs : Except String SessionsData) (st : State) : State × Option String :=
  loadSession L sessionId r rs st

/-! ## Chat -/

/-- The `catch` block of `sendMessage`. -/
def sendMessageCatch (typingNode : Node) (st : State) : State :=
  let st := removeNode typingNode st
  (addBubble "Assistant: ⚠️ Backend error. Check terminal logs." "bot" none false st).2

/-- Source `sendMessage()`; `r` is the outcome of `POST /chat`, `rs` of the
`refreshSessions()` inside the `try` block. -/
def sendMessage (L : Locale) (r : Except String ChatData) (rs : Except String SessionsData)
    (st : State) : State :=
  let msg := jsTrim st.input
  if msg = "" then st
  else
    let st := (addBubble ("You: " ++ msg) "user" none false st).2
    let st := { st with input := "" }
    let (typingNode, st) := addBubble "" "bot" none true st
    let st := st.record (Event.fetch ⟨"POST", "/chat", Body.json msg st.currentSessionId⟩)
    match r with
    | .error _ => sendMessageCatch typingNode st
    | .ok data =>
      let st := removeNode typingNode st
      let metaText :=
        match truthyOrNull data.source with
        | some src => some ("Source: " ++ src)
        | none => none
      let st := (addBubble ("Assistant: " ++ data.response) "bot" metaText false st).2
      match refreshSessions L rs st with
      | (st, none) => st
      | (st, some _) => sendMessageCatch typingNode st

/-- The click listener of `#clearChat`. -/
def clearChatClick (st : State) : State :=
  let st := clearChatView st
  (addBubble "Assistant: Cleared view. Select the chat again to reload full history."
    "bot" none false st).2

/-! ## Upload -/

/-- The `catch` block of the upload listener. -/
def uploadCatch (typingNode : Node) (st : State) : State :=
  let st := removeNode typingNode st
  (addBubble "Assistant: ⚠️ Upload failed. Check terminal logs." "bot" none false st).2

/-- The click listener of `#upload`; `r` is the outcome of `POST /upload`, `rs` of the
`refreshSessions()` inside the `try` block. -/
def uploadClick (L : Locale) (r : Except String UploadData) (rs : Except String SessionsData)
    (st : State) : State :=
  let files := st.files
  if files.length = 0 then
    (addBubble "Assistant: Choose one or more PDFs first." "bot" none false st).2
  else
    let fd := Body.formData files st.currentSessionId
    let (typingNode, st) := addBubble "" "bot" (some "Uploading & indexing PDFs…") true st
    let st := st.record (Event.fetch ⟨"POST", "/upload", fd⟩)
    match r with
    | .error _ => uploadCatch typingNode st
    | .ok data =>
      let st := removeNode typingNode st
      let st := (data.messages.getD []).foldl
        (fun st m => (addBubble ("Assistant: " ++ m) "bot" none false st).2) st
      let st := renderPdfList (data.pdf_list.getD []) st
      match refreshSessions L rs st with
      | (st, none) => st
      | (st, some _) => uploadCatch typingNode st

/-! ## Boot -/

/-- The top-level statement `let currentSessionId = localStorage.getItem(..) || ""`. -/
def pageLoad (dom : State) : State :=
  { dom with currentSessionId := strOr (getItem dom.localStorage "ssc_session_id") "" }

/-- Source `init()`; `r0` is the outcome of the first `refreshSessions()`, `rLoad` and
`rsLoad` those awaited by `loadSession`, `rNew` and `rsNew` those awaited by
`createNewSession`. -/
def init (L : Locale) (r0 : Except String SessionsData)
    (rLoad : Except String SessionData) (rsLoad : Except String SessionsData)
    (rNew : Except String SessionData) (rsNew : Except String SessionsData)
    (st : State) : State × Option String :=
  match refreshSessions L r0 st with
  | (st, some e) => (st, some e)
  | (st, none) =>
    if st.currentSessionId ≠ "" then
      match loadSession L st.currentSessionId rLoad rsLoad st with
      | (st, none) => (st, none)
      | (st, some _) => createNewSession L rNew rsNew st
    else
      createNewSession L rNew rsNew st

/-! ## Descriptions used in the statements -/

/-- Every attached chat node was created before the next node to be created. -/
def FreshIds (st : State) : Prop :=
  ∀ n ∈ st.chat, n.id < st.nextId

/-- In `log`, an occurrence of `a` is followed, later on, by an occurrence of `b`. -/
def Precedes (a b : Event) (log : List Event) : Prop :=
  ∃ l1 l2 l3, log = l1 ++ a :: (l2 ++ b :: l3)

/-- The request of `refreshSessions`. -/
def listRequest : Request := ⟨"GET", "/api/sessions", Body.empty⟩

/-- The request of `createNewSession`. -/
def newRequest : Request := ⟨"POST", "/api/session/new", Body.empty⟩

/-- The request of `loadSession`. -/
def loadRequest (sessionId : String) : Request :=
  ⟨"GET", "/api/session/" ++ sessionId, Body.empty⟩

/-- The `POST /chat` request `sendMessage` issues. -/
def chatRequest (st : State) : Request :=
  ⟨"POST", "/chat", Body.json (jsTrim st.input) st.currentSessionId⟩

/-- Whether a create/load outcome is a decoded body with a `session` object. -/
def hasSession (r : Except String SessionData) : Bool :=
  match r with
  | .ok data => data.session.isSome
  | .error _ => false

/-- The user bubble `sendMessage` creates first. -/
def userNode (st : State) : Node :=
  ⟨st.nextId, "msg user", Bubble.content ("You: " ++ jsTrim st.input) none⟩

/-- The typing placeholder `sendMessage` creates second. -/
def typingNode (st : State) : Node :=
  ⟨st.nextId + 1, "msg bot", Bubble.typing⟩

/-- The bot bubble a successful `POST /chat` produces. -/
def replyNode (st : State) (data : ChatData) : Node :=
  ⟨st.nextId + 2, "msg bot",
    Bubble.content ("Assistant: " ++ data.response)
      (match truthyOrNull data.source with
        | some src => some ("Source: " ++ src)
        | none => none)⟩

/-- The fixed error bubble of `sendMessage`, created as node `k`. -/
def backendErrorNode (k : Nat) : Node :=
  ⟨k, "msg bot", Bubble.content "Assistant: ⚠️ Backend error. Check terminal logs." none⟩

/-- The typing placeholder the upload listener creates. -/
def uploadingNode (st : State) : Node :=
  ⟨st.nextId, "msg bot", Bubble.typing⟩

/-- The bubbles the upload listener shows for the server's status messages. -/
def uploadBubbles (data : UploadData) : List (String × Bubble) :=
  (data.messages.getD []).map (fun m => ("msg bot", Bubble.content ("Assistant: " ++ m) none))

/-- The `div.hint` shown by `renderSessions` for an empty list. -/
def sessionsHint : SessionDiv := ⟨"hint", "No chats yet.", none⟩

/-- The `div.hint` shown by `renderPdfList` for an empty list. -/
def pdfHint : Div := ⟨"hint", "Upload PDFs to see them here."⟩

/-- The children `renderSessions` leaves in `#sessionList`. -/
def sessionDivs (L : Locale) (currentSessionId : String) (list : List Session) :
    List SessionDiv :=
  if list.length = 0 then [sessionsHint] else list.map (sessionItem L currentSessionId)

/-- The children `renderPdfList` leaves in `#pdfList`. -/
def pdfDivs (list : List String) : List Div :=
  if list.length = 0 then [pdfHint] else list.map (fun name => ⟨"pdf-item", name⟩)

/-- The session entries among the children of `#sessionList`; the hint is not one. -/
def sessionEntries (ds : List SessionDiv) : List SessionDiv :=
  ds.filter (fun d => d.className != "hint")

/-- The PDF entries among the children of `#pdfList`; the hint is not one. -/
def pdfEntries (ds : List Div) : List Div :=
  ds.filter (fun d => d.className != "hint")

/-- Class and bubble `renderHistory` gives one history message. -/
def historyBubble (msg : ChatMessage) : String × Bubble :=
  if msg.role = "user" then ("msg user", Bubble.content msg.text none)
  else if msg.role = "bot" then ("msg bot", Bubble.content msg.text (truthyOrNull msg.metaText))
  else ("msg bot", Bubble.content ("Assistant: " ++ msg.text) none)

/-- The rendering of a session history: one bubble per message, in order, or the single
"This chat is empty" bubble for an empty history. -/
def historyBubbles (history : List ChatMessage) : List (String × Bubble) :=
  if history.length = 0 then
    [("msg bot", Bubble.content "Assistant: This chat is empty. Upload PDFs to begin." none)]
  else history.map historyBubble

/-- Nodes with consecutive identities `k, k+1, …` carrying the given bubbles. -/
def nodesFrom (k : Nat) : List (String × Bubble) → List Node
  | [] => []
  | b :: bs => ⟨k, b.1, b.2⟩ :: nodesFrom (k + 1) bs

/-- The events `appendChild k, appendChild (k+1), …`, `n` of them. -/
def appendEvents (k : Nat) : Nat → List Event
  | 0 => []
  | n + 1 => Event.appendChild k :: appendEvents (k + 1) n

/-- The page after `bs` were appended to the chat pane one by one. -/
def appended (bs : List (String × Bubble)) (st : State) : State :=
  { st with
    chat := st.chat ++ nodesFrom st.nextId bs,
    nextId := st.nextId + bs.length,
    log := st.log ++ appendEvents st.nextId bs.length }

/-- The statements `createNewSession` and `loadSession` share after `await res.json()`. -/
def applySessionData (L : Locale) (data : SessionData) (rs : Except String SessionsData)
    (st : State) : State × Option String :=
  match data.session with
  | none => (st, some typeError)
  | some session =>
    let st := { st with currentSessionId := session.id }
    let st := { st with
      localStorage := setItem st.localStorage "ssc_session_id" st.currentSessionId }
    let st := setActiveHeader L session.name session.created_at st
    let st := renderPdfList (data.pdf_list.getD []) st
    let st := renderHistory (data.history.getD []) st
    refreshSessions L rs st

/-- The page after the synchronous part of `createNewSession`/`loadSession` for a
response whose `session` object is present. -/
def renderedSession (L : Locale) (session : SessionInfo) (data : SessionData) (st : State) :
    State :=
  { st with
    currentSessionId := session.id,
    localStorage := setItem st.localStorage "ssc_session_id" session.id,
    activeChatName := strOr (some session.name) "Chat",
    activeChatMeta :=
      if session.created_at ≠ "" then "Created: " ++ L.toLocaleString session.created_at
      else "—",
    pdfList := pdfDivs (data.pdf_list.getD []),
    chat := nodesFrom st.nextId (historyBubbles (data.history.getD [])),
    nextId := st.nextId + (historyBubbles (data.history.getD [])).length,
    log := st.log ++ Event.clear ::
      appendEvents st.nextId (historyBubbles (data.history.getD [])).length }

/-! ## Concrete pages and responses -/

/-- A platform that prints dates verbatim. -/
def plainLocale : Locale := ⟨fun s => s, fun s => s, fun n => toString n⟩

/-- An empty page with nothing persisted. -/
def blankPage : State :=
  { chat := [], nextId := 0, input := "", files := [], pdfList := [], sessionList := [],
    activeChatName := "", activeChatMeta := "", currentSessionId := "",
    localStorage := [], log := [] }

/-- A page whose input box holds `hi`. -/
def hiPage : State := { blankPage with input := "hi" }

/-- A page whose input box holds only blanks, a tab and a line feed. -/
def blanksPage : State := { blankPage with input := "  \t\n" }

/-- A page with one PDF selected in the file input. -/
def onePdfPage : State := { blankPage with files := ["notes.pdf"] }

/-- A page with session id `a` persisted in storage. -/
def returningPage : State := { blankPage with localStorage := [("ssc_session_id", "a")] }

/-- A session response with one stored user message. -/
def sessionA : SessionData :=
  ⟨some ⟨"a", "Chat 1", "2024-01-01T00:00:00Z"⟩, some [],
    some [⟨"user", "You: what is a monad?", none⟩]⟩

/-- A session whose name opens an HTML comment. -/
def markupSession : Session := ⟨"a", "<!--", "2024-01-01T00:00:00Z", 0, 2⟩

/-- The session list holding session `a` only. -/
def sessionsA : SessionsData :=
  ⟨some [⟨"a", "Chat 1", "2024-01-01T00:00:00Z", 0, 1⟩]⟩

/-- The page after session `a` was loaded into a blank page. -/
def loadedPageA : State :=
  (loadSession plainLocale "a" (.ok sessionA) (.ok sessionsA) blankPage).1

/-- The page `loadedPageA` after a click on Upload with no file selected. -/
def hintedPageA : State :=
  uploadClick plainLocale (.error "unused") (.error "unused") loadedPageA

/-! ## Lemmas -/

theorem dropWhile_eq_nil_of_all {α : Type} (p : α → Bool) (l : List α)
    (h : ∀ a ∈ l, p a = true) : l.dropWhile p = [] := by
  induction l with
  | nil => rfl
  | cons a t ih =>
    have ha : p a = true := h a (List.mem_cons_self a t)
    simp only [List.dropWhile, ha]
    exact ih (fun b hb => h b (List.mem_cons_of_mem a hb))

theorem jsTrim_eq_empty (s : String) (h : ∀ c ∈ s.data, isTrimChar c = true) :
    jsTrim s = "" := by
  unfold jsTrim
  rw [dropWhile_eq_nil_of_all isTrimChar s.data h]
  rfl

theorem filter_fresh (chat : List Node) (k j : Nat) (h : ∀ n ∈ chat, n.id < k)
    (hj : k ≤ j) : chat.filter (fun n => !decide (n.id = j)) = chat := by
  apply List.filter_eq_self.mpr
  intro n hn
  have := h n hn
  simp
  omega

theorem source_ne_empty (s : String) : "Source: " ++ s ≠ "" := by
  intro h
  have hlen := congrArg String.length h
  rw [String.length_append] at hlen
  have h8 : "Source: ".length = 8 := by decide
  have h0 : "".length = 0 := by decide
  omega

theorem truthyOrNull_none : truthyOrNull none = none := rfl

theorem truthyOrNull_source (s : String) :
    truthyOrNull (some ("Source: " ++ s)) = some ("Source: " ++ s) := by
  simp [truthyOrNull, source_ne_empty]

theorem getItem_setItem (store : List (String × String)) (key value : String) :
    getItem (setItem store key value) key = some value := by
  simp [getItem, setItem, List.lookup]

theorem sendMessage_error_state (L : Locale) (e : String) (rs : Except String SessionsData)
    (st : State) (hmsg : jsTrim st.input ≠ "") (hfresh : FreshIds st) :
    sendMessage L (.error e) rs st =
      { st with
        chat := st.chat ++ [userNode st, backendErrorNode (st.nextId + 2)],
        nextId := st.nextId + 3,
        input := "",
        log := st.log ++ [Event.appendChild st.nextId, Event.appendChild (st.nextId + 1),
          Event.fetch (chatRequest st), Event.remove (st.nextId + 1),
          Event.appendChild (st.nextId + 2)] } := by
  have hf := filter_fresh st.chat st.nextId (st.nextId + 1) hfresh (by omega)
  simp [sendMessage, hmsg, addBubble, removeNode, State.record, sendMessageCatch,
    truthyOrNull_none, userNode, backendErrorNode, chatRequest, List.filter_append, hf]

theorem foldl_sessionItem (L : Locale) (list : List Session) (st : State) :
    list.foldl (fun st s =>
      { st with sessionList := st.sessionList ++ [sessionItem L st.currentSessionId s] }) st =
    { st with sessionList := st.sessionList ++ list.map (sessionItem L st.currentSessionId) } := by
  induction list generalizing st with
  | nil => simp
  | cons s t ih => simp [List.foldl, ih]

theorem renderSessions_eq (L : Locale) (list : List Session) (st : State) :
    renderSessions L list st =
      { st with sessionList := sessionDivs L st.currentSessionId list } := by
  unfold renderSessions sessionDivs
  by_cases h : list.length = 0
  · simp [h, sessionsHint]
  · simp [h, foldl_sessionItem]

theorem foldl_pdfItem (list : List String) (st : State) :
    list.foldl (fun st name => { st with pdfList := st.pdfList ++ [⟨"pdf-item", name⟩] }) st =
    { st with pdfList := st.pdfList ++ list.map (fun name => ⟨"pdf-item", name⟩) } := by
  induction list generalizing st with
  | nil => simp
  | cons s t ih => simp [List.foldl, ih]

theorem renderPdfList_eq (list : List String) (st : State) :
    renderPdfList list st = { st with pdfList := pdfDivs list } := by
  unfold renderPdfList pdfDivs
  by_cases h : list.length = 0
  · simp [h, pdfHint]
  · simp [h, foldl_pdfItem]

theorem refreshSessions_ok (L : Locale) (data : SessionsData) (st : State) :
    refreshSessions L (.ok data) st =
      ({ st with
          sessionList := sessionDivs L st.currentSessionId (data.sessions.getD []),
          log := st.log ++ [Event.fetch listRequest] }, none) := by
  simp [refreshSessions, renderSessions_eq, State.record, listRequest]

theorem refreshSessions_error (L : Locale) (e : String) (st : State) :
    refreshSessions L (.error e) st =
      ({ st with log := st.log ++ [Event.fetch listRequest] }, some e) := by
  simp [refreshSessions, State.record, listRequest]

theorem sendMessage_ok_state (L : Locale) (data : ChatData) (sess : SessionsData)
    (st : State) (hmsg : jsTrim st.input ≠ "") (hfresh : FreshIds st) :
    sendMessage L (.ok data) (.ok sess) st =
      { st with
        chat := st.chat ++ [userNode st, replyNode st data],
        nextId := st.nextId + 3,
        input := "",
        sessionList := sessionDivs L st.currentSessionId (sess.sessions.getD []),
        log := st.log ++ [Event.appendChild st.nextId, Event.appendChild (st.nextId + 1),
          Event.fetch (chatRequest st), Event.remove (st.nextId + 1),
          Event.appendChild (st.nextId + 2), Event.fetch listRequest] } := by
  have hf := filter_fresh st.chat st.nextId (st.nextId + 1) hfresh (by omega)
  rcases hsrc : truthyOrNull data.source with _ | src <;>
  simp [sendMessage, hmsg, addBubble, removeNode, State.record, refreshSessions_ok,
    userNode, replyNode, chatRequest, List.filter_append, hf, hsrc, truthyOrNull_none,
    truthyOrNull_source]

theorem sendMessage_ok_refreshError_state (L : Locale) (data : ChatData) (e : String)
    (st : State) (hmsg : jsTrim st.input ≠ "") (hfresh : FreshIds st) :
    sendMessage L (.ok data) (.error e) st =
      { st with
        chat := st.chat ++ [userNode st, replyNode st data, backendErrorNode (st.nextId + 3)],
        nextId := st.nextId + 4,
        input := "",
        log := st.log ++ [Event.appendChild st.nextId, Event.appendChild (st.nextId + 1),
          Event.fetch (chatRequest st), Event.remove (st.nextId + 1),
          Event.appendChild (st.nextId + 2), Event.fetch listRequest,
          Event.remove (st.nextId + 1), Event.appendChild (st.nextId + 3)] } := by
  have hf := filter_fresh st.chat st.nextId (st.nextId + 1) hfresh (by omega)
  rcases hsrc : truthyOrNull data.source with _ | src <;>
  simp [sendMessage, hmsg, addBubble, removeNode, State.record, refreshSessions_error,
    sendMessageCatch, userNode, replyNode, backendErrorNode, chatRequest,
    List.filter_append, hf, hsrc, truthyOrNull_none, truthyOrNull_source]

theorem fetched_append (l1 l2 : List Event) : fetched (l1 ++ l2) = fetched l1 ++ fetched l2 := by
  simp [fetched, List.filterMap_append]

theorem requests_of_log (st st1 : State) (es : List Event) (h : st1.log = st.log ++ es) :
    requests st1 = requests st ++ fetched es := by
  simp [requests, h, fetched_append]

theorem sessionItem_className (L : Locale) (cur : String) (s : Session) :
    (sessionItem L cur s).className = if s.id = cur then "session-item active" else "session-item" := by
  unfold sessionItem
  by_cases h : s.id = cur
  · simp only [h, if_true]; decide
  · simp only [h, if_false]; decide

theorem sessionItem_ne_hint (L : Locale) (cur : String) (s : Session) :
    ((sessionItem L cur s).className != "hint") = true := by
  rw [sessionItem_className]
  by_cases h : s.id = cur
  · simp only [h, if_true]; decide
  · simp only [h, if_false]; decide

theorem sessionEntries_sessionDivs (L : Locale) (cur : String) (list : List Session) :
    sessionEntries (sessionDivs L cur list) = list.map (sessionItem L cur) := by
  unfold sessionEntries sessionDivs
  cases list with
  | nil =>
    simp only [List.length_nil, if_true, List.map_nil]
    decide
  | cons s t =>
    simp only [List.length_cons, Nat.succ_ne_zero, if_false]
    apply List.filter_eq_self.mpr
    intro d hd
    obtain ⟨s1, _, rfl⟩ := List.mem_map.mp hd
    exact sessionItem_ne_hint L cur s1

theorem truthyOrNull_idem (x : Option String) : truthyOrNull (truthyOrNull x) = truthyOrNull x := by
  cases x with
  | none => rfl
  | some v =>
    by_cases h : v = ""
    · simp [truthyOrNull, h]
    · simp [truthyOrNull, h]

theorem contents_nodesFrom (k : Nat) (bs : List (String × Bubble)) :
    contents (nodesFrom k bs) = bs := by
  induction bs generalizing k with
  | nil => rfl
  | cons b t ih =>
    have := ih (k + 1)
    simp only [contents] at this
    simp [contents, nodesFrom, this]

theorem length_nodesFrom (k : Nat) (bs : List (String × Bubble)) :
    (nodesFrom k bs).length = bs.length := by
  induction bs generalizing k with
  | nil => rfl
  | cons b t ih => simp [nodesFrom, ih]

theorem id_ge_of_mem_nodesFrom (k : Nat) (bs : List (String × Bubble)) (n : Node)
    (hn : n ∈ nodesFrom k bs) : k ≤ n.id := by
  induction bs generalizing k with
  | nil => simp [nodesFrom] at hn
  | cons b t ih =>
    simp only [nodesFrom, List.mem_cons] at hn
    rcases hn with hn | hn
    · subst hn; exact Nat.le_refl _
    · have := ih (k + 1) hn
      omega

theorem id_lt_of_mem_nodesFrom (k : Nat) (bs : List (String × Bubble)) (n : Node)
    (hn : n ∈ nodesFrom k bs) : n.id < k + bs.length := by
  induction bs generalizing k with
  | nil => simp [nodesFrom] at hn
  | cons b t ih =>
    simp only [nodesFrom, List.mem_cons] at hn
    rcases hn with hn | hn
    · subst hn; simp
    · have := ih (k + 1) hn
      simp only [List.length_cons]
      omega

theorem appended_cons (b : String × Bubble) (bs : List (String × Bubble)) (st : State) :
    appended (b :: bs) st = appended bs (appended [b] st) := by
  simp [appended, nodesFrom, appendEvents, Nat.add_comm, Nat.add_left_comm]

theorem appended_nil (st : State) : appended [] st = st := by
  simp [appended, nodesFrom, appendEvents]

theorem renderHistoryStep_eq (st : State) (msg : ChatMessage) :
    renderHistoryStep st msg = appended [historyBubble msg] st := by
  unfold renderHistoryStep historyBubble
  by_cases h1 : msg.role = "user"
  · simp [h1, addBubble, appended, nodesFrom, appendEvents, truthyOrNull_none]
  · by_cases h2 : msg.role = "bot"
    · simp [h1, h2, addBubble, appended, nodesFrom, appendEvents, truthyOrNull_idem]
    · simp [h1, h2, addBubble, appended, nodesFrom, appendEvents, truthyOrNull_none]

theorem foldl_renderHistoryStep (history : List ChatMessage) (st : State) :
    history.foldl renderHistoryStep st = appended (history.map historyBubble) st := by
  induction history generalizing st with
  | nil => simp [appended_nil]
  | cons m t ih =>
    simp only [List.foldl, List.map_cons]
    rw [ih, renderHistoryStep_eq, ← appended_cons]

theorem renderHistory_eq (history : List ChatMessage) (st : State) :
    renderHistory history st = appended (historyBubbles history) (clearChatView st) := by
  unfold renderHistory historyBubbles
  by_cases h : history.length = 0
  · simp [h, addBubble, appended, nodesFrom, appendEvents, truthyOrNull_none]
  · simp only [h, if_false]
    exact foldl_renderHistoryStep history (clearChatView st)

theorem foldl_uploadMessages (msgs : List String) (st : State) :
    msgs.foldl (fun st m => (addBubble ("Assistant: " ++ m) "bot" none false st).2) st =
      appended (msgs.map (fun m => ("msg bot", Bubble.content ("Assistant: " ++ m) none))) st := by
  induction msgs generalizing st with
  | nil => simp [appended_nil]
  | cons m t ih =>
    simp only [List.foldl, List.map_cons]
    rw [ih, appended_cons]
    simp [addBubble, appended, nodesFrom, appendEvents, truthyOrNull_none]

theorem loadSession_eq (L : Locale) (sessionId : String) (r : Except String SessionData)
    (rs : Except String SessionsData) (st : State) :
    loadSession L sessionId r rs st =
      match r with
      | .error e => (st.record (Event.fetch (loadRequest sessionId)), some e)
      | .ok data => applySessionData L data rs (st.record (Event.fetch (loadRequest sessionId))) := by
  cases r <;> rfl

theorem createNewSession_eq (L : Locale) (r : Except String SessionData)
    (rs : Except String SessionsData) (st : State) :
    createNewSession L r rs st =
      match r with
      | .error e => (st.record (Event.fetch newRequest), some e)
      | .ok data => applySessionData L data rs (st.record (Event.fetch newRequest)) := by
  cases r <;> rfl

theorem applySessionData_some (L : Locale) (data : SessionData) (session : SessionInfo)
    (rs : Except String SessionsData) (st : State) (hs : data.session = some session) :
    applySessionData L data rs st = refreshSessions L rs (renderedSession L session data st) := by
  unfold applySessionData
  simp only [hs]
  congr 1
  by_cases hc : session.created_at = ""
  · simp [renderedSession, setActiveHeader, renderPdfList_eq, renderHistory_eq, appended,
      clearChatView, hc]
  · simp [renderedSession, setActiveHeader, renderPdfList_eq, renderHistory_eq, appended,
      clearChatView, hc]

theorem applySessionData_none (L : Locale) (data : SessionData)
    (rs : Except String SessionsData) (st : State) (hs : data.session = none) :
    applySessionData L data rs st = (st, some typeError) := by
  unfold applySessionData
  simp only [hs]

theorem refreshSessions_fst (L : Locale) (rs : Except String SessionsData) (st : State) :
    (refreshSessions L rs st).1.chat = st.chat ∧
    (refreshSessions L rs st).1.currentSessionId = st.currentSessionId ∧
    (refreshSessions L rs st).1.localStorage = st.localStorage ∧
    (refreshSessions L rs st).1.nextId = st.nextId ∧
    (refreshSessions L rs st).1.log = st.log ++ [Event.fetch listRequest] := by
  cases rs with
  | error e => simp [refreshSessions_error]
  | ok data => simp [refreshSessions_ok]

theorem refreshSessions_snd (L : Locale) (rs : Except String SessionsData) (st : State) :
    (refreshSessions L rs st).2 = none ↔ ∃ sess, rs = .ok sess := by
  cases rs with
  | error e => simp [refreshSessions_error]
  | ok data => simp [refreshSessions_ok]

theorem pdfEntries_pdfDivs (list : List String) :
    pdfEntries (pdfDivs list) = list.map (fun name => ⟨"pdf-item", name⟩) := by
  unfold pdfEntries pdfDivs
  cases list with
  | nil =>
    simp only [List.length_nil, if_true, List.map_nil]
    decide
  | cons s t =>
    simp only [List.length_cons, Nat.succ_ne_zero, if_false]
    apply List.filter_eq_self.mpr
    intro d hd
    obtain ⟨s1, _, rfl⟩ := List.mem_map.mp hd
    show ("pdf-item" != "hint") = true
    decide

theorem uploadClick_ok_state (L : Locale) (data : UploadData) (sess : SessionsData)
    (st : State) (hfiles : st.files ≠ []) (hfresh : FreshIds st) :
    uploadClick L (.ok data) (.ok sess) st =
      { st with
        chat := st.chat ++ nodesFrom (st.nextId + 1) (uploadBubbles data),
        nextId := st.nextId + 1 + (uploadBubbles data).length,
        pdfList := pdfDivs (data.pdf_list.getD []),
        sessionList := sessionDivs L st.currentSessionId (sess.sessions.getD []),
        log := st.log ++ [Event.appendChild st.nextId,
          Event.fetch ⟨"POST", "/upload", Body.formData st.files st.currentSessionId⟩,
          Event.remove st.nextId] ++ appendEvents (st.nextId + 1) (uploadBubbles data).length ++
          [Event.fetch listRequest] } := by
  have hf := filter_fresh st.chat st.nextId st.nextId hfresh (Nat.le_refl _)
  have hlen : ¬ st.files.length = 0 := by
    intro h
    exact hfiles (List.length_eq_zero.mp h)
  unfold uploadClick
  simp only [hlen, if_false, foldl_uploadMessages, renderPdfList_eq, refreshSessions_ok]
  simp [addBubble, removeNode, State.record, appended, uploadBubbles, List.filter_append, hf]

theorem fetched_appendEvents (k n : Nat) : fetched (appendEvents k n) = [] := by
  induction n generalizing k with
  | zero => rfl
  | succ m ih =>
    simp only [appendEvents, fetched, List.filterMap_cons]
    exact ih (k + 1)

theorem loadRequest_ne_listRequest (sessionId : String) : loadRequest sessionId ≠ listRequest := by
  intro h
  have hurl : "/api/session/" ++ sessionId = "/api/sessions" := by
    have := congrArg Request.url h
    simpa [loadRequest, listRequest] using this
  have hdata := congrArg String.data hurl
  rw [String.data_append] at hdata
  have h1 : "/api/session/".data = ['/', 'a', 'p', 'i', '/', 's', 'e', 's', 's', 'i', 'o', 'n', '/'] := by
    decide
  have h2 : "/api/sessions".data = ['/', 'a', 'p', 'i', '/', 's', 'e', 's', 's', 'i', 'o', 'n', 's'] := by
    decide
  rw [h1, h2] at hdata
  simp at hdata

theorem loadRequest_ne_newRequest (sessionId : String) : loadRequest sessionId ≠ newRequest := by
  intro h
  have := congrArg Request.method h
  simp [loadRequest, newRequest] at this

theorem newRequest_ne_listRequest : newRequest ≠ listRequest := by decide

theorem refreshSessions_requests (L : Locale) (rs : Except String SessionsData) (st : State) :
    requests (refreshSessions L rs st).1 = requests st ++ [listRequest] :=
  requests_of_log st _ _ (refreshSessions_fst L rs st).2.2.2.2

theorem applySessionData_requests (L : Locale) (data : SessionData)
    (rs : Except String SessionsData) (st : State) :
    requests (applySessionData L data rs st).1 =
      requests st ++ (if data.session.isSome then [listRequest] else []) := by
  rcases hs : data.session with _ | session
  · simp [applySessionData_none L data rs st hs]
  · rw [applySessionData_some L data session rs st hs, refreshSessions_requests]
    have : requests (renderedSession L session data st) = requests st := by
      have := requests_of_log st (renderedSession L session data st)
        (Event.clear :: appendEvents st.nextId (historyBubbles (data.history.getD [])).length) rfl
      rw [this]
      have hcons : fetched (Event.clear :: appendEvents st.nextId
          (historyBubbles (data.history.getD [])).length) = [] := by
        show fetched (appendEvents st.nextId _) = []
        exact fetched_appendEvents _ _
      rw [hcons, List.append_nil]
    rw [this]
    simp

theorem applySessionData_snd (L : Locale) (data : SessionData)
    (rs : Except String SessionsData) (st : State) :
    (applySessionData L data rs st).2 = none ↔
      data.session.isSome = true ∧ ∃ sess, rs = .ok sess := by
  rcases hs : data.session with _ | session
  · simp [applySessionData_none L data rs st hs]
  · rw [applySessionData_some L data session rs st hs, refreshSessions_snd]
    simp

theorem loadSession_requests (L : Locale) (sessionId : String) (r : Except String SessionData)
    (rs : Except String SessionsData) (st : State) :
    requests (loadSession L sessionId r rs st).1 =
      requests st ++ loadRequest sessionId :: (if hasSession r then [listRequest] else []) := by
  cases r with
  | error e => simp [loadSession_eq, hasSession, State.record, requests, fetched_append, fetched,
      loadRequest]
  | ok data =>
    simp only [loadSession_eq, hasSession]
    rw [applySessionData_requests]
    simp [State.record, requests, fetched_append, fetched, loadRequest]

theorem loadSession_snd (L : Locale) (sessionId : String) (r : Except String SessionData)
    (rs : Except String SessionsData) (st : State) :
    (loadSession L sessionId r rs st).2 = none ↔
      hasSession r = true ∧ ∃ sess, rs = .ok sess := by
  cases r with
  | error e => simp [loadSession_eq, hasSession]
  | ok data =>
    simp only [loadSession_eq, hasSession]
    exact applySessionData_snd L data rs _

theorem createNewSession_requests (L : Locale) (r : Except String SessionData)
    (rs : Except String SessionsData) (st : State) :
    requests (createNewSession L r rs st).1 =
      requests st ++ newRequest :: (if hasSession r then [listRequest] else []) := by
  cases r with
  | error e => simp [createNewSession_eq, hasSession, State.record, requests, fetched_append,
      fetched, newRequest]
  | ok data =>
    simp only [createNewSession_eq, hasSession]
    rw [applySessionData_requests]
    simp [State.record, requests, fetched_append, fetched, newRequest]

theorem init_refresh_ok (L : Locale) (sess0 : SessionsData)
    (rLoad : Except String SessionData) (rsLoad : Except String SessionsData)
    (rNew : Except String SessionData) (rsNew : Except String SessionsData) (st : State) :
    init L (.ok sess0) rLoad rsLoad rNew rsNew st =
      if st.currentSessionId ≠ "" then
        if (loadSession L st.currentSessionId rLoad rsLoad
            (refreshSessions L (.ok sess0) st).1).2 = none then
          ((loadSession L st.currentSessionId rLoad rsLoad
            (refreshSessions L (.ok sess0) st).1).1, none)
        else
          createNewSession L rNew rsNew (loadSession L st.currentSessionId rLoad rsLoad
            (refreshSessions L (.ok sess0) st).1).1
      else
        createNewSession L rNew rsNew (refreshSessions L (.ok sess0) st).1 := by
  unfold init
  rw [refreshSessions_ok]
  by_cases hcur : st.currentSessionId = ""
  · simp [hcur]
  · simp only [ne_eq, hcur, not_false_eq_true, if_true]
    rcases hload : loadSession L st.currentSessionId rLoad rsLoad
      { st with
        sessionList := sessionDivs L st.currentSessionId (sess0.sessions.getD []),
        log := st.log ++ [Event.fetch listRequest] } with ⟨st2, _ | e⟩
    · simp
    · simp

theorem init_requests (L : Locale) (sess0 : SessionsData)
    (rLoad : Except String SessionData) (rsLoad : Except String SessionsData)
    (rNew : Except String SessionData) (rsNew : Except String SessionsData) (st : State) :
    requests (init L (.ok sess0) rLoad rsLoad rNew rsNew st).1 =
      requests st ++ listRequest ::
        (if st.currentSessionId ≠ "" then
          loadRequest st.currentSessionId ::
            ((if hasSession rLoad then [listRequest] else []) ++
              (if (loadSession L st.currentSessionId rLoad rsLoad
                  (refreshSessions L (.ok sess0) st).1).2 = none then []
               else newRequest :: (if hasSession rNew then [listRequest] else [])))
        else newRequest :: (if hasSession rNew then [listRequest] else [])) := by
  rw [init_refresh_ok]
  by_cases hcur : st.currentSessionId = ""
  · simp only [ne_eq, hcur, not_true_eq_false, if_false]
    rw [createNewSession_requests, refreshSessions_requests]
    simp
  · simp only [ne_eq, hcur, not_false_eq_true, if_true]
    by_cases hload : (loadSession L st.currentSessionId rLoad rsLoad
        (refreshSessions L (.ok sess0) st).1).2 = none
    · simp only [hload, if_true]
      rw [loadSession_requests, refreshSessions_requests]
      simp
    · simp only [hload, if_false]
      rw [createNewSession_requests, loadSession_requests, refreshSessions_requests]
      simp

theorem sessionMetaText_safe (L : Locale) (s : Session) (hp : s.pdf_count < 2 ^ 53)
    (hm : s.message_count < 2 ^ 53) :
    sessionMetaText L s =
      toString s.pdf_count ++ " PDF(s) • " ++ toString s.message_count ++ " msg" := by
  simp only [sessionMetaText, numberToString, if_pos hp, if_pos hm]

theorem renderSessions_entries (L : Locale) (list : List Session) (st : State) :
    sessionEntries (renderSessions L list st).sessionList =
      list.map (sessionItem L st.currentSessionId) ∧
    (renderSessions L list st).sessionList =
      (if list = [] then [⟨"hint", "No chats yet.", none⟩]
       else sessionEntries (renderSessions L list st).sessionList) ∧
    (∀ d ∈ sessionEntries (renderSessions L list st).sessionList,
      d.className = "session-item active" ↔ d.click = some st.currentSessionId) := by
  have hentries : sessionEntries (renderSessions L list st).sessionList =
      list.map (sessionItem L st.currentSessionId) := by
    rw [renderSessions_eq]
    exact sessionEntries_sessionDivs L st.currentSessionId list
  refine ⟨hentries, ?_, ?_⟩
  · rw [hentries, renderSessions_eq]
    cases list with
    | nil => rfl
    | cons s t => simp [sessionDivs]
  · rw [hentries]
    intro d hd
    obtain ⟨s, _, rfl⟩ := List.mem_map.mp hd
    rw [sessionItem_className]
    by_cases h : s.id = st.currentSessionId
    · simp [h, sessionItem]
    · simp only [h, if_false]
      constructor
      · intro hc
        exact absurd hc (by decide)
      · intro hc
        simp [sessionItem] at hc
        exact absurd hc h

/-! ## The node-identity invariant holds in every reachable page -/

theorem freshIds_of_eq (st st1 : State) (hc : st1.chat = st.chat) (hn : st1.nextId = st.nextId)
    (h : FreshIds st) : FreshIds st1 := by
  intro n hmem
  rw [hc] at hmem
  rw [hn]
  exact h n hmem

theorem freshIds_addBubble (text who : String) (metaText : Option String) (isTyping : Bool)
    (st : State) (h : FreshIds st) : FreshIds (addBubble text who metaText isTyping st).2 := by
  intro n hmem
  simp only [addBubble, List.mem_append, List.mem_singleton] at hmem ⊢
  rcases hmem with hmem | hmem
  · have := h n hmem
    omega
  · subst hmem
    exact Nat.lt_succ_self _

theorem freshIds_removeNode (node : Node) (st : State) (h : FreshIds st) :
    FreshIds (removeNode node st) := by
  intro n hmem
  simp only [removeNode] at hmem ⊢
  exact h n (List.mem_of_mem_filter hmem)

theorem freshIds_clearChatView (st : State) : FreshIds (clearChatView st) := by
  intro n hmem
  simp [clearChatView] at hmem

theorem freshIds_record (e : Event) (st : State) (h : FreshIds st) : FreshIds (st.record e) :=
  freshIds_of_eq st _ rfl rfl h

theorem freshIds_appended (bs : List (String × Bubble)) (st : State) (h : FreshIds st) :
    FreshIds (appended bs st) := by
  intro n hmem
  simp only [appended, List.mem_append] at hmem ⊢
  rcases hmem with hmem | hmem
  · have := h n hmem
    omega
  · exact id_lt_of_mem_nodesFrom _ _ n hmem

theorem freshIds_refreshSessions (L : Locale) (rs : Except String SessionsData) (st : State)
    (h : FreshIds st) : FreshIds (refreshSessions L rs st).1 :=
  freshIds_of_eq st _ (refreshSessions_fst L rs st).1 (refreshSessions_fst L rs st).2.2.2.1 h

theorem freshIds_applySessionData (L : Locale) (data : SessionData)
    (rs : Except String SessionsData) (st : State) (h : FreshIds st) :
    FreshIds (applySessionData L data rs st).1 := by
  rcases hs : data.session with _ | session
  · rw [applySessionData_none L data rs st hs]
    exact h
  · rw [applySessionData_some L data session rs st hs]
    apply freshIds_refreshSessions
    intro n hmem
    exact id_lt_of_mem_nodesFrom _ _ n hmem

theorem freshIds_loadSession (L : Locale) (sessionId : String) (r : Except String SessionData)
    (rs : Except String SessionsData) (st : State) (h : FreshIds st) :
    FreshIds (loadSession L sessionId r rs st).1 := by
  cases r with
  | error e => exact freshIds_record _ st h
  | ok data => exact freshIds_applySessionData L data rs _ (freshIds_record _ st h)

theorem freshIds_createNewSession (L : Locale) (r : Except String SessionData)
    (rs : Except String SessionsData) (st : State) (h : FreshIds st) :
    FreshIds (createNewSession L r rs st).1 := by
  cases r with
  | error e => exact freshIds_record _ st h
  | ok data => exact freshIds_applySessionData L data rs _ (freshIds_record _ st h)

theorem freshIds_clearChatClick (st : State) : FreshIds (clearChatClick st) :=
  freshIds_addBubble _ _ _ _ _ (freshIds_clearChatView st)

theorem freshIds_sendMessage (L : Locale) (r : Except String ChatData)
    (rs : Except String SessionsData) (st : State) (h : FreshIds st) :
    FreshIds (sendMessage L r rs st) := by
  by_cases hmsg : jsTrim st.input = ""
  · have : sendMessage L r rs st = st := by simp [sendMessage, hmsg]
    rw [this]
    exact h
  · have hstep : ∀ n ∈ st.chat, n.id < st.nextId + 4 := fun n hn => by
      have := h n hn
      omega
    cases r with
    | error e =>
      rw [sendMessage_error_state L e rs st hmsg h]
      intro n hmem
      simp only [List.mem_append, List.mem_cons, List.mem_singleton, List.not_mem_nil,
        or_false] at hmem ⊢
      rcases hmem with hmem | hmem | hmem
      · have := h n hmem
        omega
      · subst hmem; simp [userNode]
      · subst hmem; simp [backendErrorNode]
    | ok data =>
      cases rs with
      | error e =>
        rw [sendMessage_ok_refreshError_state L data e st hmsg h]
        intro n hmem
        simp only [List.mem_append, List.mem_cons, List.mem_singleton, List.not_mem_nil,
          or_false] at hmem ⊢
        rcases hmem with hmem | hmem | hmem | hmem
        · exact hstep n hmem
        · subst hmem; simp [userNode]
        · subst hmem; simp [replyNode]
        · subst hmem; simp [backendErrorNode]
      | ok sess =>
        rw [sendMessage_ok_state L data sess st hmsg h]
        intro n hmem
        simp only [List.mem_append, List.mem_cons, List.mem_singleton, List.not_mem_nil,
          or_false] at hmem ⊢
        rcases hmem with hmem | hmem | hmem
        · have := h n hmem
          omega
        · subst hmem; simp [userNode]
        · subst hmem; simp [replyNode]

theorem freshIds_uploadClick (L : Locale) (r : Except String UploadData)
    (rs : Except String SessionsData) (st : State) (h : FreshIds st) :
    FreshIds (uploadClick L r rs st) := by
  by_cases hlen : st.files.length = 0
  · have : uploadClick L r rs st =
        (addBubble "Assistant: Choose one or more PDFs first." "bot" none false st).2 := by
      simp [uploadClick, hlen]
    rw [this]
    exact freshIds_addBubble _ _ _ _ _ h
  · unfold uploadClick
    simp only [hlen, if_false, foldl_uploadMessages, renderPdfList_eq]
    cases r with
    | error e =>
      exact freshIds_addBubble _ _ _ _ _ (freshIds_removeNode _ _
        (freshIds_record _ _ (freshIds_addBubble _ _ _ _ _ h)))
    | ok data =>
      have hmid : FreshIds (refreshSessions L rs
          { appended (List.map (fun m => ("msg bot", Bubble.content ("Assistant: " ++ m) none))
              (data.messages.getD []))
            (removeNode (addBubble "" "bot" (some "Uploading & indexing PDFs…") true st).1
              ((addBubble "" "bot" (some "Uploading & indexing PDFs…") true st).2.record
                (Event.fetch ⟨"POST", "/upload",
                  Body.formData st.files st.currentSessionId⟩))) with
            pdfList := pdfDivs (data.pdf_list.getD []) }).1 := by
        apply freshIds_refreshSessions
        exact freshIds_of_eq _ _ rfl rfl (freshIds_appended _ _ (freshIds_removeNode _ _
          (freshIds_record _ _ (freshIds_addBubble _ _ _ _ _ h))))
      rcases hres : refreshSessions L rs
          { appended (List.map (fun m => ("msg bot", Bubble.content ("Assistant: " ++ m) none))
              (data.messages.getD []))
            (removeNode (addBubble "" "bot" (some "Uploading & indexing PDFs…") true st).1
              ((addBubble "" "bot" (some "Uploading & indexing PDFs…") true st).2.record
                (Event.fetch ⟨"POST", "/upload",
                  Body.formData st.files st.currentSessionId⟩))) with
            pdfList := pdfDivs (data.pdf_list.getD []) } with ⟨st2, _ | e⟩
      · rw [hres] at hmid
        simp only [hres]
        exact hmid
      · rw [hres] at hmid
        simp only [hres]
        exact freshIds_addBubble _ _ _ _ _ (freshIds_removeNode _ _ hmid)

theorem freshIds_init (L : Locale) (r0 : Except String SessionsData)
    (rLoad : Except String SessionData) (rsLoad : Except String SessionsData)
    (rNew : Except String SessionData) (rsNew : Except String SessionsData) (st : State)
    (h : FreshIds st) : FreshIds (init L r0 rLoad rsLoad rNew rsNew st).1 := by
  cases r0 with
  | error e =>
    have : init L (.error e) rLoad rsLoad rNew rsNew st = (refreshSessions L (.error e) st) := by
      simp [init, refreshSessions_error]
    rw [this]
    exact freshIds_refreshSessions L _ st h
  | ok sess0 =>
    rw [init_refresh_ok]
    have h1 := freshIds_refreshSessions L (.ok sess0) st h
    have h2 := freshIds_loadSession L st.currentSessionId rLoad rsLoad _ h1
    split_ifs
    · exact h2
    · exact freshIds_createNewSession L rNew rsNew _ h2
    · exact freshIds_createNewSession L rNew rsNew _ h1

theorem freshIds_blankPage : FreshIds blankPage := by
  intro n hmem
  simp [blankPage] at hmem

/-! ## C1: successful send -/

/-- C1 (amended): for an input that is non-empty after trimming, when the chat request
succeeds and the session-list refresh that follows it succeeds as well, `sendMessage`
leaves the chat pane equal to the former pane followed by one user bubble and then one
bot bubble, and the typing placeholder it inserted is not in the pane. -/
theorem sendMessage_success_appends_user_then_bot (L : Locale) (data : ChatData)
    (sess : SessionsData) (st : State) (hmsg : jsTrim st.input ≠ "")
    (hfresh : FreshIds st) :
    (sendMessage L (.ok data) (.ok sess) st).chat =
      st.chat ++ [userNode st, replyNode st data] ∧
    (userNode st).className = "msg user" ∧
    (replyNode st data).className = "msg bot" ∧
    (∀ n ∈ (sendMessage L (.ok data) (.ok sess) st).chat, n.id ≠ (typingNode st).id) ∧
    (∀ n ∈ (sendMessage L (.ok data) (.ok sess) st).chat,
      n.bubble = Bubble.typing → n ∈ st.chat) := by
  rw [sendMessage_ok_state L data sess st hmsg hfresh]
  refine ⟨rfl, rfl, rfl, ?_, ?_⟩
  · intro n hn
    simp only [List.mem_append, List.mem_cons, List.mem_singleton, List.not_mem_nil,
      or_false] at hn
    rcases hn with hn | hn | hn
    · have := hfresh n hn
      simp only [typingNode]
      omega
    · subst hn
      simp [userNode, typingNode]
    · subst hn
      simp [replyNode, typingNode]
  · intro n hn htyping
    simp only [List.mem_append, List.mem_cons, List.mem_singleton, List.not_mem_nil,
      or_false] at hn
    rcases hn with hn | hn | hn
    · exact hn
    · subst hn
      simp [userNode] at htyping
    · subst hn
      simp [replyNode] at htyping

theorem sendMessage_success_appends_user_then_bot_witness :
    jsTrim hiPage.input ≠ "" ∧ FreshIds hiPage ∧
    ((sendMessage plainLocale (.ok ⟨"Hello", some "doc.pdf"⟩) (.ok ⟨some []⟩) hiPage).chat =
      hiPage.chat ++ [userNode hiPage, replyNode hiPage ⟨"Hello", some "doc.pdf"⟩] ∧
    (userNode hiPage).className = "msg user" ∧
    (replyNode hiPage ⟨"Hello", some "doc.pdf"⟩).className = "msg bot" ∧
    (∀ n ∈ (sendMessage plainLocale (.ok ⟨"Hello", some "doc.pdf"⟩) (.ok ⟨some []⟩)
        hiPage).chat, n.id ≠ (typingNode hiPage).id) ∧
    (∀ n ∈ (sendMessage plainLocale (.ok ⟨"Hello", some "doc.pdf"⟩) (.ok ⟨some []⟩)
        hiPage).chat, n.bubble = Bubble.typing → n ∈ hiPage.chat)) :=
  ⟨by decide, by intro n hn; simp [hiPage, blankPage] at hn,
    sendMessage_success_appends_user_then_bot plainLocale _ _ hiPage (by decide)
      (by intro n hn; simp [hiPage, blankPage] at hn)⟩

/-- C1 (counterexample): the chat request succeeds but the refresh of the session list
inside the same `try` block fails; three bubbles are appended (user, reply, error), so
the pane is not the former pane followed by exactly two bubbles. -/
theorem sendMessage_refresh_failure_adds_error_bubble :
    jsTrim hiPage.input ≠ "" ∧
    contents (sendMessage plainLocale (.ok ⟨"Hello", none⟩) (.error "Failed to fetch")
      hiPage).chat =
      [("msg user", Bubble.content "You: hi" none),
       ("msg bot", Bubble.content "Assistant: Hello" none),
       ("msg bot", Bubble.content "Assistant: ⚠️ Backend error. Check terminal logs." none)] ∧
    ¬ ∃ u b : Node,
      (sendMessage plainLocale (.ok ⟨"Hello", none⟩) (.error "Failed to fetch") hiPage).chat =
        hiPage.chat ++ [u, b] := by
  have h : (sendMessage plainLocale (.ok ⟨"Hello", none⟩) (.error "Failed to fetch")
      hiPage).chat =
      [⟨0, "msg user", Bubble.content "You: hi" none⟩,
       ⟨2, "msg bot", Bubble.content "Assistant: Hello" none⟩,
       ⟨3, "msg bot", Bubble.content "Assistant: ⚠️ Backend error. Check terminal logs." none⟩] := by
    decide
  refine ⟨by decide, ?_, ?_⟩
  · rw [h]; rfl
  · rintro ⟨u, b, hub⟩
    rw [h] at hub
    have := congrArg List.length hub
    simp [hiPage, blankPage] at this

/-! ## C2: blank input -/

/-- C2: for an input that is empty or made only of characters `trim()` strips,
`sendMessage` returns at once: the page (chat pane included) is unchanged and no request
is issued, whatever the network would have answered. -/
theorem sendMessage_blank_input_noop (L : Locale) (r : Except String ChatData)
    (rs : Except String SessionsData) (st : State)
    (hblank : ∀ c ∈ st.input.data, isTrimChar c = true) :
    sendMessage L r rs st = st ∧
    (sendMessage L r rs st).chat = st.chat ∧
    requests (sendMessage L r rs st) = requests st := by
  have h : sendMessage L r rs st = st := by
    simp [sendMessage, jsTrim_eq_empty st.input hblank]
  rw [h]
  exact ⟨rfl, rfl, rfl⟩

theorem sendMessage_blank_input_noop_witness :
    (∀ c ∈ blanksPage.input.data, isTrimChar c = true) ∧
    sendMessage plainLocale (.error "offline") (.error "offline") blanksPage = blanksPage ∧
    (sendMessage plainLocale (.error "offline") (.error "offline") blanksPage).chat =
      blanksPage.chat ∧
    requests (sendMessage plainLocale (.error "offline") (.error "offline") blanksPage) =
      requests blanksPage :=
  ⟨by decide, sendMessage_blank_input_noop plainLocale _ _ blanksPage (by decide)⟩

/-! ## C3: clear view, then reload -/

/-- C3 (amended): when the load issued by selecting a session succeeds, "Clear view"
followed by that selection leaves the chat pane showing exactly the rendering of the
history the server returned, without the cleared-view notice; hence the pane has the same
number of bubbles and the same bubble contents as before clearing whenever the pane before
clearing showed exactly the rendering of that (unchanged) history. -/
theorem clear_then_select_renders_history (L : Locale) (sessionId : String)
    (data : SessionData) (session : SessionInfo) (rs : Except String SessionsData)
    (st : State) (hs : data.session = some session) :
    contents (selectSession L sessionId (.ok data) rs (clearChatClick st)).1.chat =
      historyBubbles (data.history.getD []) ∧
    (∀ n ∈ (selectSession L sessionId (.ok data) rs (clearChatClick st)).1.chat,
      n.id ≠ st.nextId) ∧
    (clearChatClick st).chat = [⟨st.nextId, "msg bot", Bubble.content
      "Assistant: Cleared view. Select the chat again to reload full history." none⟩] ∧
    requests (clearChatClick st) = requests st ∧
    (clearChatClick st).localStorage = st.localStorage ∧
    (contents st.chat = historyBubbles (data.history.getD []) →
      contents (selectSession L sessionId (.ok data) rs (clearChatClick st)).1.chat =
        contents st.chat ∧
      (selectSession L sessionId (.ok data) rs (clearChatClick st)).1.chat.length =
        st.chat.length) ∧
    (∀ st0 : State, contents (renderHistory (data.history.getD []) st0).chat =
      historyBubbles (data.history.getD [])) := by
  have hchat : (selectSession L sessionId (.ok data) rs (clearChatClick st)).1.chat =
      nodesFrom (st.nextId + 1) (historyBubbles (data.history.getD [])) := by
    simp only [selectSession, loadSession_eq]
    rw [applySessionData_some L data session rs _ hs]
    rw [(refreshSessions_fst L rs _).1]
    simp [renderedSession, State.record, clearChatClick, clearChatView, addBubble]
  have hcont : contents (selectSession L sessionId (.ok data) rs (clearChatClick st)).1.chat =
      historyBubbles (data.history.getD []) := by
    rw [hchat, contents_nodesFrom]
  refine ⟨hcont, ?_, ?_, ?_, ?_, ?_, ?_⟩
  · rw [hchat]
    intro n hn
    have := id_ge_of_mem_nodesFrom _ _ n hn
    omega
  · simp [clearChatClick, clearChatView, addBubble, truthyOrNull_none]
  · simp [clearChatClick, clearChatView, addBubble, requests, fetched, List.filterMap_append]
  · simp [clearChatClick, clearChatView, addBubble]
  · intro hpane
    refine ⟨by rw [hcont, hpane], ?_⟩
    have h1 := congrArg List.length hcont
    have h2 := congrArg List.length hpane
    simp only [contents, List.length_map] at h1 h2
    omega
  · intro st0
    rw [renderHistory_eq]
    simp only [appended, clearChatView, List.nil_append]
    exact contents_nodesFrom _ _

theorem clear_then_select_renders_history_witness :
    sessionA.session = some ⟨"a", "Chat 1", "2024-01-01T00:00:00Z"⟩ ∧
    (contents (selectSession plainLocale "a" (.ok sessionA) (.ok sessionsA)
        (clearChatClick loadedPageA)).1.chat = historyBubbles (sessionA.history.getD []) ∧
    (∀ n ∈ (selectSession plainLocale "a" (.ok sessionA) (.ok sessionsA)
        (clearChatClick loadedPageA)).1.chat, n.id ≠ loadedPageA.nextId) ∧
    (clearChatClick loadedPageA).chat = [⟨loadedPageA.nextId, "msg bot", Bubble.content
      "Assistant: Cleared view. Select the chat again to reload full history." none⟩] ∧
    requests (clearChatClick loadedPageA) = requests loadedPageA ∧
    (clearChatClick loadedPageA).localStorage = loadedPageA.localStorage ∧
    (contents loadedPageA.chat = historyBubbles (sessionA.history.getD []) →
      contents (selectSession plainLocale "a" (.ok sessionA) (.ok sessionsA)
        (clearChatClick loadedPageA)).1.chat = contents loadedPageA.chat ∧
      (selectSession plainLocale "a" (.ok sessionA) (.ok sessionsA)
        (clearChatClick loadedPageA)).1.chat.length = loadedPageA.chat.length) ∧
    (∀ st0 : State, contents (renderHistory (sessionA.history.getD []) st0).chat =
      historyBubbles (sessionA.history.getD []))) ∧
    contents loadedPageA.chat = historyBubbles (sessionA.history.getD []) :=
  ⟨rfl,
    clear_then_select_renders_history plainLocale "a" sessionA
      ⟨"a", "Chat 1", "2024-01-01T00:00:00Z"⟩ (.ok sessionsA) loadedPageA rfl,
    by decide⟩

/-- C3 (counterexample): session `a` is loaded, Upload is clicked with no file selected
(a hint bubble is appended and no request is issued, so the server-side history is the
same), then "Clear view" and the selection of session `a` with the same response: the
pane had two bubbles before clearing and has one afterwards. -/
theorem clear_then_select_drops_local_bubbles :
    requests hintedPageA = requests loadedPageA ∧
    contents hintedPageA.chat =
      [("msg user", Bubble.content "You: what is a monad?" none),
       ("msg bot", Bubble.content "Assistant: Choose one or more PDFs first." none)] ∧
    contents (selectSession plainLocale "a" (.ok sessionA) (.ok sessionsA)
        (clearChatClick hintedPageA)).1.chat =
      [("msg user", Bubble.content "You: what is a monad?" none)] ∧
    contents (selectSession plainLocale "a" (.ok sessionA) (.ok sessionsA)
        (clearChatClick hintedPageA)).1.chat ≠ contents hintedPageA.chat ∧
    (selectSession plainLocale "a" (.ok sessionA) (.ok sessionsA)
        (clearChatClick hintedPageA)).1.chat.length ≠ hintedPageA.chat.length := by
  decide

/-! ## C4: active session id after a load -/

/-- C4 (amended): when `loadSession(id)` completes without throwing, the response carried
a `session` object, and both `currentSessionId` and the value stored under
"ssc_session_id" equal the id of that object; they equal `id` whenever the server answered
with the session that was asked for. -/
theorem loadSession_adopts_response_id (L : Locale) (sessionId : String)
    (r : Except String SessionData) (rs : Except String SessionsData) (st : State)
    (hok : (loadSession L sessionId r rs st).2 = none) :
    ∃ data session, r = .ok data ∧ data.session = some session ∧
      (loadSession L sessionId r rs st).1.currentSessionId = session.id ∧
      getItem (loadSession L sessionId r rs st).1.localStorage "ssc_session_id" =
        some session.id ∧
      (session.id = sessionId →
        (loadSession L sessionId r rs st).1.currentSessionId = sessionId ∧
        getItem (loadSession L sessionId r rs st).1.localStorage "ssc_session_id" =
          some sessionId) := by
  cases r with
  | error e => simp [loadSession_eq] at hok
  | ok data =>
    rcases hs : data.session with _ | session
    · simp [loadSession_eq, applySessionData_none L data rs _ hs] at hok
    · have hcur : (loadSession L sessionId (.ok data) rs st).1.currentSessionId = session.id := by
        simp only [loadSession_eq]
        rw [applySessionData_some L data session rs _ hs, (refreshSessions_fst L rs _).2.1]
        rfl
      have hstore : getItem (loadSession L sessionId (.ok data) rs st).1.localStorage
          "ssc_session_id" = some session.id := by
        simp only [loadSession_eq]
        rw [applySessionData_some L data session rs _ hs, (refreshSessions_fst L rs _).2.2.1]
        exact getItem_setItem _ _ _
      refine ⟨data, session, rfl, hs, hcur, hstore, ?_⟩
      intro hid
      rw [hcur, hstore, hid]
      exact ⟨rfl, rfl⟩

theorem loadSession_adopts_response_id_witness :
    (loadSession plainLocale "a" (.ok sessionA) (.ok sessionsA) blankPage).2 = none ∧
    ∃ data session, (.ok sessionA : Except String SessionData) = .ok data ∧
      data.session = some session ∧
      (loadSession plainLocale "a" (.ok sessionA) (.ok sessionsA)
        blankPage).1.currentSessionId = session.id ∧
      getItem (loadSession plainLocale "a" (.ok sessionA) (.ok sessionsA)
        blankPage).1.localStorage "ssc_session_id" = some session.id ∧
      (session.id = "a" →
        (loadSession plainLocale "a" (.ok sessionA) (.ok sessionsA)
          blankPage).1.currentSessionId = "a" ∧
        getItem (loadSession plainLocale "a" (.ok sessionA) (.ok sessionsA)
          blankPage).1.localStorage "ssc_session_id" = some "a") :=
  ⟨by decide,
    loadSession_adopts_response_id plainLocale "a" (.ok sessionA) (.ok sessionsA) blankPage
      (by decide)⟩

/-- C4 (counterexample): `loadSession("a")` receives a well-formed response describing
session `b` and completes without throwing; the active and the persisted id are `b`, not
the requested `a`. -/
theorem loadSession_active_id_differs_from_argument :
    (loadSession plainLocale "a" (.ok ⟨some ⟨"b", "Chat 2", ""⟩, none, none⟩) (.ok sessionsA)
      blankPage).2 = none ∧
    (loadSession plainLocale "a" (.ok ⟨some ⟨"b", "Chat 2", ""⟩, none, none⟩) (.ok sessionsA)
      blankPage).1.currentSessionId = "b" ∧
    getItem (loadSession plainLocale "a" (.ok ⟨some ⟨"b", "Chat 2", ""⟩, none, none⟩)
      (.ok sessionsA) blankPage).1.localStorage "ssc_session_id" = some "b" ∧
    (loadSession plainLocale "a" (.ok ⟨some ⟨"b", "Chat 2", ""⟩, none, none⟩) (.ok sessionsA)
      blankPage).1.currentSessionId ≠ "a" := by
  decide

/-! ## C5: failed send -/

/-- C5: for an input that is non-empty after trimming, when `POST /chat` or the decoding
of its body throws `e`, the pane ends as the former pane, the user bubble and one bot
bubble with the fixed text "Assistant: ⚠️ Backend error. Check terminal logs.", whatever
`e` is, and the typing placeholder is gone; and in every run, successful or not, the
placeholder is removed before the bubble that ends up last is appended. -/
theorem sendMessage_failure_shows_fixed_error (L : Locale) (e : String)
    (rs : Except String SessionsData) (st : State) (hmsg : jsTrim st.input ≠ "")
    (hfresh : FreshIds st) :
    (sendMessage L (.error e) rs st).chat =
      st.chat ++ [userNode st,
        ⟨st.nextId + 2, "msg bot",
          Bubble.content "Assistant: ⚠️ Backend error. Check terminal logs." none⟩] ∧
    (∀ n ∈ (sendMessage L (.error e) rs st).chat, n.id ≠ (typingNode st).id) ∧
    (∀ (r : Except String ChatData) (rs1 : Except String SessionsData),
      ∃ new final, (sendMessage L r rs1 st).log = st.log ++ new ∧
        (sendMessage L r rs1 st).chat.getLast? = some final ∧
        final.bubble ≠ Bubble.typing ∧
        Precedes (Event.appendChild (typingNode st).id) (Event.remove (typingNode st).id) new ∧
        Precedes (Event.remove (typingNode st).id) (Event.appendChild final.id) new) := by
  refine ⟨?_, ?_, ?_⟩
  · rw [sendMessage_error_state L e rs st hmsg hfresh]
    rfl
  · rw [sendMessage_error_state L e rs st hmsg hfresh]
    intro n hn
    simp only [List.mem_append, List.mem_cons, List.mem_singleton, List.not_mem_nil,
      or_false] at hn
    rcases hn with hn | hn | hn
    · have := hfresh n hn
      simp only [typingNode]
      omega
    · subst hn
      simp [userNode, typingNode]
    · subst hn
      simp [backendErrorNode, typingNode]
  · intro r rs1
    cases r with
    | error e1 =>
      rw [sendMessage_error_state L e1 rs1 st hmsg hfresh]
      refine ⟨_, backendErrorNode (st.nextId + 2), rfl, by simp, by simp [backendErrorNode],
        ⟨[Event.appendChild st.nextId], [Event.fetch (chatRequest st)],
          [Event.appendChild (st.nextId + 2)], rfl⟩,
        ⟨[Event.appendChild st.nextId, Event.appendChild (st.nextId + 1),
          Event.fetch (chatRequest st)], [], [], rfl⟩⟩
    | ok data =>
      cases rs1 with
      | error e1 =>
        rw [sendMessage_ok_refreshError_state L data e1 st hmsg hfresh]
        refine ⟨_, backendErrorNode (st.nextId + 3), rfl, by simp, by simp [backendErrorNode],
          ⟨[Event.appendChild st.nextId], [Event.fetch (chatRequest st)],
            [Event.appendChild (st.nextId + 2), Event.fetch listRequest,
              Event.remove (st.nextId + 1), Event.appendChild (st.nextId + 3)], rfl⟩,
          ⟨[Event.appendChild st.nextId, Event.appendChild (st.nextId + 1),
            Event.fetch (chatRequest st)],
            [Event.appendChild (st.nextId + 2), Event.fetch listRequest,
              Event.remove (st.nextId + 1)], [], rfl⟩⟩
      | ok sess =>
        rw [sendMessage_ok_state L data sess st hmsg hfresh]
        refine ⟨_, replyNode st data, rfl, by simp, by simp [replyNode],
          ⟨[Event.appendChild st.nextId], [Event.fetch (chatRequest st)],
            [Event.appendChild (st.nextId + 2), Event.fetch listRequest], rfl⟩,
          ⟨[Event.appendChild st.nextId, Event.appendChild (st.nextId + 1),
            Event.fetch (chatRequest st)], [], [Event.fetch listRequest], rfl⟩⟩

theorem sendMessage_failure_shows_fixed_error_witness :
    jsTrim hiPage.input ≠ "" ∧ FreshIds hiPage ∧
    ((sendMessage plainLocale (.error "Failed to fetch") (.ok ⟨none⟩) hiPage).chat =
      hiPage.chat ++ [userNode hiPage,
        ⟨hiPage.nextId + 2, "msg bot",
          Bubble.content "Assistant: ⚠️ Backend error. Check terminal logs." none⟩] ∧
    (∀ n ∈ (sendMessage plainLocale (.error "Failed to fetch") (.ok ⟨none⟩) hiPage).chat,
      n.id ≠ (typingNode hiPage).id) ∧
    (∀ (r : Except String ChatData) (rs1 : Except String SessionsData),
      ∃ new final, (sendMessage plainLocale r rs1 hiPage).log = hiPage.log ++ new ∧
        (sendMessage plainLocale r rs1 hiPage).chat.getLast? = some final ∧
        final.bubble ≠ Bubble.typing ∧
        Precedes (Event.appendChild (typingNode hiPage).id)
          (Event.remove (typingNode hiPage).id) new ∧
        Precedes (Event.remove (typingNode hiPage).id) (Event.appendChild final.id) new)) :=
  ⟨by decide, by intro n hn; simp [hiPage, blankPage] at hn,
    sendMessage_failure_shows_fixed_error plainLocale _ _ hiPage (by decide)
      (by intro n hn; simp [hiPage, blankPage] at hn)⟩

/-! ## C6: reply bubble -/

/-- C6 (amended): for an input that is non-empty after trimming and a decoded chat
response, the bot bubble `sendMessage` renders has the text "Assistant: " followed by
`response`; it has the meta line "Source: " followed by `source` exactly when `source`
is present and not the empty string, and no meta line otherwise. -/
theorem sendMessage_reply_bubble (L : Locale) (data : ChatData)
    (rs : Except String SessionsData) (st : State) (hmsg : jsTrim st.input ≠ "") :
    (⟨st.nextId + 2, "msg bot",
      Bubble.content ("Assistant: " ++ data.response)
        (match data.source with
          | some src => if src = "" then none else some ("Source: " ++ src)
          | none => none)⟩ : Node) ∈ (sendMessage L (.ok data) rs st).chat := by
  rcases hsrc : data.source with _ | src
  · cases rs <;>
    simp [sendMessage, hmsg, addBubble, removeNode, State.record, refreshSessions_ok,
      refreshSessions_error, sendMessageCatch, hsrc, truthyOrNull, List.filter_append]
  · by_cases hempty : src = ""
    · cases rs <;>
      simp [sendMessage, hmsg, addBubble, removeNode, State.record, refreshSessions_ok,
        refreshSessions_error, sendMessageCatch, hsrc, truthyOrNull, List.filter_append,
        hempty]
    · cases rs <;>
      simp [sendMessage, hmsg, addBubble, removeNode, State.record, refreshSessions_ok,
        refreshSessions_error, sendMessageCatch, hsrc, truthyOrNull, List.filter_append,
        hempty, source_ne_empty]

theorem sendMessage_reply_bubble_witness :
    jsTrim hiPage.input ≠ "" ∧
    (⟨2, "msg bot", Bubble.content "Assistant: Hello" (some "Source: doc.pdf")⟩ : Node) ∈
      (sendMessage plainLocale (.ok ⟨"Hello", some "doc.pdf"⟩) (.ok ⟨none⟩) hiPage).chat :=
  ⟨by decide,
    sendMessage_reply_bubble plainLocale ⟨"Hello", some "doc.pdf"⟩ (.ok ⟨none⟩) hiPage
      (by decide)⟩

/-- C6 (counterexample): the response carries a `source` field holding the empty string;
the rendered bot bubble has no meta line although `source` is present. -/
theorem sendMessage_empty_source_has_no_meta :
    (sendMessage plainLocale (.ok ⟨"Hello", some ""⟩) (.ok ⟨none⟩) hiPage).chat =
      [⟨0, "msg user", Bubble.content "You: hi" none⟩,
       ⟨2, "msg bot", Bubble.content "Assistant: Hello" none⟩] ∧
    ¬ ∃ n ∈ (sendMessage plainLocale (.ok ⟨"Hello", some ""⟩) (.ok ⟨none⟩) hiPage).chat,
      n.bubble = Bubble.content "Assistant: Hello" (some ("Source: " ++ "")) := by
  decide

/-! ## C7: session list -/

set_option maxRecDepth 20000 in
/-- C7 (the code at a failing input): for the session list holding the single session
named `<!--` with 0 PDFs and 2 messages, `renderSessions` assigns to the entry's
`innerHTML` the template with the name substituted unescaped.  The name stands in the
markup as the opening of an HTML comment, and no `--` follows it, so nothing closes the
comment: the browser reads the rest of the markup, the meta text included, as comment
data, and the entry is labelled neither with the name nor with "0 PDF(s) • 2 msg".  The
sibling renderers `renderPdfList` and `addBubble` store the same string as `textContent`,
which is shown as it is. -/
theorem renderSessions_splices_name_as_markup :
    (renderSessions plainLocale [markupSession] blankPage).sessionList =
      [⟨"session-item",
        "\n      <div class=\"session-left\">\n        <div class=\"session-name\">" ++
        "<!--" ++
        ("</div>\n        <div class=\"session-meta\">0 PDF(s) • 2 msg</div>\n      </div>" ++
         "\n      <div class=\"session-right\">2024-01-01T00:00:00Z</div>\n    "),
        some "a"⟩] ∧
    ¬ ("--".data <:+:
        ("</div>\n        <div class=\"session-meta\">0 PDF(s) • 2 msg</div>\n      </div>" ++
         "\n      <div class=\"session-right\">2024-01-01T00:00:00Z</div>\n    ").data) ∧
    (renderPdfList ["<!--"] blankPage).pdfList = [⟨"pdf-item", "<!--"⟩] ∧
    (addBubble "<!--" "bot" none false blankPage).2.chat =
      [⟨0, "msg bot", Bubble.content "<!--" none⟩] := by
  refine ⟨by decide, by decide, by decide, by decide⟩

/-! ## C8: upload without files -/

/-- C8: with no file selected the upload listener appends exactly one bot bubble, the
hint "Assistant: Choose one or more PDFs first.", and issues no request. -/
theorem upload_without_files_hints (L : Locale) (r : Except String UploadData)
    (rs : Except String SessionsData) (st : State) (hfiles : st.files = []) :
    (uploadClick L r rs st).chat =
      st.chat ++ [⟨st.nextId, "msg bot",
        Bubble.content "Assistant: Choose one or more PDFs first." none⟩] ∧
    requests (uploadClick L r rs st) = requests st ∧
    (uploadClick L r rs st).log = st.log ++ [Event.appendChild st.nextId] := by
  simp [uploadClick, hfiles, addBubble, truthyOrNull_none, requests, fetched, List.filterMap_append]

theorem upload_without_files_hints_witness :
    blankPage.files = [] ∧
    (uploadClick plainLocale (.error "offline") (.error "offline") blankPage).chat =
      blankPage.chat ++ [⟨blankPage.nextId, "msg bot",
        Bubble.content "Assistant: Choose one or more PDFs first." none⟩] ∧
    requests (uploadClick plainLocale (.error "offline") (.error "offline") blankPage) =
      requests blankPage ∧
    (uploadClick plainLocale (.error "offline") (.error "offline") blankPage).log =
      blankPage.log ++ [Event.appendChild blankPage.nextId] :=
  ⟨rfl, upload_without_files_hints plainLocale _ _ blankPage rfl⟩

/-! ## C9: boot sequence -/

/-- C9 (amended): when the first `refreshSessions()` of the boot sequence succeeds, then:
if a non-empty session id is persisted, the next request is the load of that id, and
`createNewSession` is invoked (once) exactly when that load throws, which it does for a
failed request, a body without `session` object, or a failed refresh inside the load; if
no id (or the empty string) is persisted, `createNewSession` is invoked directly and no
load is requested. -/
theorem init_loads_persisted_id_else_creates (L : Locale) (dom : State)
    (sess0 : SessionsData) (rLoad : Except String SessionData)
    (rsLoad : Except String SessionsData) (rNew : Except String SessionData)
    (rsNew : Except String SessionsData) :
    ∃ new,
      requests (init L (.ok sess0) rLoad rsLoad rNew rsNew (pageLoad dom)).1 =
        requests dom ++ listRequest :: new ∧
      (∀ id, getItem dom.localStorage "ssc_session_id" = some id → id ≠ "" →
        new.head? = some (loadRequest id) ∧
        new.count (loadRequest id) = 1 ∧
        new.count newRequest =
          (if (loadSession L id rLoad rsLoad
              (refreshSessions L (.ok sess0) (pageLoad dom)).1).2 = none then 0 else 1) ∧
        ((loadSession L id rLoad rsLoad
            (refreshSessions L (.ok sess0) (pageLoad dom)).1).2 = none ↔
          hasSession rLoad = true ∧ ∃ sess, rsLoad = .ok sess)) ∧
      ((getItem dom.localStorage "ssc_session_id" = none ∨
          getItem dom.localStorage "ssc_session_id" = some "") →
        new.head? = some newRequest ∧
        new.count newRequest = 1 ∧
        ∀ id, new.count (loadRequest id) = 0) := by
  have hreq : requests (pageLoad dom) = requests dom := rfl
  have hll : ∀ id, (listRequest == loadRequest id) = false := fun id => by
    simpa using (loadRequest_ne_listRequest id).symm
  have hnl : ∀ id, (newRequest == loadRequest id) = false := fun id => by
    simpa using (loadRequest_ne_newRequest id).symm
  have hln : (listRequest == newRequest) = false := by decide
  have hlnew : ∀ id, (loadRequest id == newRequest) = false := fun id => by
    simpa using loadRequest_ne_newRequest id
  refine ⟨_, by rw [init_requests, hreq], ?_, ?_⟩
  · intro id hid hne
    have hcur : (pageLoad dom).currentSessionId = id := by
      simp [pageLoad, hid, strOr, hne]
    rw [hcur]
    simp only [ne_eq, hne, not_false_eq_true, if_true]
    refine ⟨rfl, ?_, ?_, loadSession_snd L id rLoad rsLoad _⟩
    · by_cases hload : (loadSession L id rLoad rsLoad
          (refreshSessions L (.ok sess0) (pageLoad dom)).1).2 = none <;>
      cases hasSession rLoad <;> cases hasSession rNew <;>
      simp [hload, List.count_cons, hll, hnl]
    · by_cases hload : (loadSession L id rLoad rsLoad
          (refreshSessions L (.ok sess0) (pageLoad dom)).1).2 = none <;>
      cases hasSession rLoad <;> cases hasSession rNew <;>
      simp [hload, List.count_cons, hln, hlnew]
  · intro hnone
    have hcur : (pageLoad dom).currentSessionId = "" := by
      rcases hnone with h | h <;> simp [pageLoad, h, strOr]
    rw [hcur]
    simp only [ne_eq, not_true_eq_false, if_false]
    refine ⟨rfl, ?_, ?_⟩
    · cases hasSession rNew <;> simp [List.count_cons, hln]
    · intro id
      cases hasSession rNew <;> simp [List.count_cons, hll, hnl]

theorem init_loads_persisted_id_else_creates_witness :
    getItem returningPage.localStorage "ssc_session_id" = some "a" ∧
    requests (init plainLocale (.ok sessionsA) (.error "404") (.ok sessionsA) (.ok sessionA)
        (.ok sessionsA) (pageLoad returningPage)).1 =
      [listRequest, loadRequest "a", newRequest, listRequest] ∧
    ∃ new,
      requests (init plainLocale (.ok sessionsA) (.error "404") (.ok sessionsA) (.ok sessionA)
          (.ok sessionsA) (pageLoad returningPage)).1 =
        requests returningPage ++ listRequest :: new ∧
      (∀ id, getItem returningPage.localStorage "ssc_session_id" = some id → id ≠ "" →
        new.head? = some (loadRequest id) ∧
        new.count (loadRequest id) = 1 ∧
        new.count newRequest =
          (if (loadSession plainLocale id (.error "404") (.ok sessionsA)
              (refreshSessions plainLocale (.ok sessionsA)
                (pageLoad returningPage)).1).2 = none then 0 else 1) ∧
        ((loadSession plainLocale id (.error "404") (.ok sessionsA)
            (refreshSessions plainLocale (.ok sessionsA) (pageLoad returningPage)).1).2 = none ↔
          hasSession (.error "404") = true ∧
            ∃ sess, (.ok sessionsA : Except String SessionsData) = .ok sess)) ∧
      ((getItem returningPage.localStorage "ssc_session_id" = none ∨
          getItem returningPage.localStorage "ssc_session_id" = some "") →
        new.head? = some newRequest ∧
        new.count newRequest = 1 ∧
        ∀ id, new.count (loadRequest id) = 0) :=
  ⟨by decide, by decide,
    init_loads_persisted_id_else_creates plainLocale returningPage sessionsA (.error "404")
      (.ok sessionsA) (.ok sessionA) (.ok sessionsA)⟩

/-- C9 (counterexample): session id `a` is persisted but the first `refreshSessions()`
throws; `init` rejects at once, and neither the load of `a` nor the creation of a session
is requested. -/
theorem init_stops_when_first_refresh_fails :
    getItem returningPage.localStorage "ssc_session_id" = some "a" ∧
    (pageLoad returningPage).currentSessionId = "a" ∧
    (init plainLocale (.error "Failed to fetch") (.ok sessionA) (.ok sessionsA) (.ok sessionA)
      (.ok sessionsA) (pageLoad returningPage)).2 = some "Failed to fetch" ∧
    requests (init plainLocale (.error "Failed to fetch") (.ok sessionA) (.ok sessionsA)
      (.ok sessionA) (.ok sessionsA) (pageLoad returningPage)).1 = [listRequest] ∧
    loadRequest "a" ∉ requests (init plainLocale (.error "Failed to fetch") (.ok sessionA)
      (.ok sessionsA) (.ok sessionA) (.ok sessionsA) (pageLoad returningPage)).1 ∧
    newRequest ∉ requests (init plainLocale (.error "Failed to fetch") (.ok sessionA)
      (.ok sessionsA) (.ok sessionA) (.ok sessionsA) (pageLoad returningPage)).1 := by
  decide

/-! ## C10: successful upload -/

/-- C10 (amended): for a non-empty file selection, when the upload request succeeds and
the session-list refresh that follows it succeeds as well, the chat pane ends as the
former pane followed by one bot bubble "Assistant: <m>" per message `m` of `messages`, in
order, and nothing else; the uploading placeholder is not in the pane; and `#pdfList`
holds exactly one entry per name of `pdf_list`, in order (and only a hint when `pdf_list`
is empty). -/
theorem upload_success_renders_messages_and_pdfs (L : Locale) (data : UploadData)
    (sess : SessionsData) (st : State) (hfiles : st.files ≠ []) (hfresh : FreshIds st) :
    contents (uploadClick L (.ok data) (.ok sess) st).chat =
      contents st.chat ++ (data.messages.getD []).map
        (fun m => ("msg bot", Bubble.content ("Assistant: " ++ m) none)) ∧
    (uploadClick L (.ok data) (.ok sess) st).chat =
      st.chat ++ nodesFrom (st.nextId + 1) ((data.messages.getD []).map
        (fun m => ("msg bot", Bubble.content ("Assistant: " ++ m) none))) ∧
    (∀ n ∈ (uploadClick L (.ok data) (.ok sess) st).chat, n.id ≠ (uploadingNode st).id) ∧
    pdfEntries (uploadClick L (.ok data) (.ok sess) st).pdfList =
      (data.pdf_list.getD []).map (fun name => ⟨"pdf-item", name⟩) ∧
    (uploadClick L (.ok data) (.ok sess) st).pdfList =
      (if data.pdf_list.getD [] = [] then [⟨"hint", "Upload PDFs to see them here."⟩]
       else pdfEntries (uploadClick L (.ok data) (.ok sess) st).pdfList) := by
  rw [uploadClick_ok_state L data sess st hfiles hfresh]
  refine ⟨?_, rfl, ?_, ?_, ?_⟩
  · simp only [contents, List.map_append]
    have := contents_nodesFrom (st.nextId + 1) (uploadBubbles data)
    simp only [contents] at this
    rw [this]
    rfl
  · intro n hn
    simp only [List.mem_append] at hn
    rcases hn with hn | hn
    · have := hfresh n hn
      simp only [uploadingNode]
      omega
    · have := id_ge_of_mem_nodesFrom _ _ n hn
      simp only [uploadingNode]
      omega
  · exact pdfEntries_pdfDivs _
  · show pdfDivs (data.pdf_list.getD []) = _
    rw [pdfEntries_pdfDivs]
    cases data.pdf_list.getD [] with
    | nil => rfl
    | cons a t => simp [pdfDivs]

theorem upload_success_renders_messages_and_pdfs_witness :
    onePdfPage.files ≠ [] ∧ FreshIds onePdfPage ∧
    (contents (uploadClick plainLocale (.ok ⟨some ["Indexed notes.pdf"], some ["notes.pdf"]⟩)
        (.ok sessionsA) onePdfPage).chat =
      contents onePdfPage.chat ++
        ((⟨some ["Indexed notes.pdf"], some ["notes.pdf"]⟩ : UploadData).messages.getD []).map
          (fun m => ("msg bot", Bubble.content ("Assistant: " ++ m) none)) ∧
    (uploadClick plainLocale (.ok ⟨some ["Indexed notes.pdf"], some ["notes.pdf"]⟩)
        (.ok sessionsA) onePdfPage).chat =
      onePdfPage.chat ++ nodesFrom (onePdfPage.nextId + 1)
        (((⟨some ["Indexed notes.pdf"], some ["notes.pdf"]⟩ : UploadData).messages.getD []).map
          (fun m => ("msg bot", Bubble.content ("Assistant: " ++ m) none))) ∧
    (∀ n ∈ (uploadClick plainLocale (.ok ⟨some ["Indexed notes.pdf"], some ["notes.pdf"]⟩)
        (.ok sessionsA) onePdfPage).chat, n.id ≠ (uploadingNode onePdfPage).id) ∧
    pdfEntries (uploadClick plainLocale (.ok ⟨some ["Indexed notes.pdf"], some ["notes.pdf"]⟩)
        (.ok sessionsA) onePdfPage).pdfList =
      ((⟨some ["Indexed notes.pdf"], some ["notes.pdf"]⟩ : UploadData).pdf_list.getD []).map
        (fun name => ⟨"pdf-item", name⟩) ∧
    (uploadClick plainLocale (.ok ⟨some ["Indexed notes.pdf"], some ["notes.pdf"]⟩)
        (.ok sessionsA) onePdfPage).pdfList =
      (if (⟨some ["Indexed notes.pdf"], some ["notes.pdf"]⟩ : UploadData).pdf_list.getD [] = []
        then [⟨"hint", "Upload PDFs to see them here."⟩]
       else pdfEntries (uploadClick plainLocale
        (.ok ⟨some ["Indexed notes.pdf"], some ["notes.pdf"]⟩) (.ok sessionsA)
        onePdfPage).pdfList)) :=
  ⟨by decide, by intro n hn; simp [onePdfPage, blankPage] at hn,
    upload_success_renders_messages_and_pdfs plainLocale
      ⟨some ["Indexed notes.pdf"], some ["notes.pdf"]⟩ sessionsA onePdfPage (by decide)
      (by intro n hn; simp [onePdfPage, blankPage] at hn)⟩

/-- C10 (counterexample): the upload request succeeds but the refresh of the session list
inside the same `try` block fails; besides the bubble for the server's message, the
"Upload failed" bubble is appended. -/
theorem upload_refresh_failure_adds_error_bubble :
    onePdfPage.files ≠ [] ∧
    contents (uploadClick plainLocale (.ok ⟨some ["Indexed notes.pdf"], some ["notes.pdf"]⟩)
        (.error "Failed to fetch") onePdfPage).chat =
      [("msg bot", Bubble.content "Assistant: Indexed notes.pdf" none),
       ("msg bot", Bubble.content "Assistant: ⚠️ Upload failed. Check terminal logs." none)] ∧
    contents (uploadClick plainLocale (.ok ⟨some ["Indexed notes.pdf"], some ["notes.pdf"]⟩)
        (.error "Failed to fetch") onePdfPage).chat ≠
      contents onePdfPage.chat ++ ["Indexed notes.pdf"].map
        (fun m => ("msg bot", Bubble.content ("Assistant: " ++ m) none)) := by
  decide

end SSC
